import Mathlib

/-!
Shallow embedding of the `retire` repository's tax-calculation code
(`src/tax/income_tax.py`, `src/tax/capital_gain_tax.py`,
`src/tax/social_security_tax.py`) and proofs about it.

Conventions of the embedding:
* Python numbers (ints and floats used as exact decimals) are modelled as `ℚ`.
* Calendar dates are modelled by their proleptic-Gregorian ordinal (an `ℤ`,
  days since 0001-01-00), mirroring `datetime.date.toordinal`; subtraction of
  two dates then gives `(a - b).days` directly.
* `float('inf')` as a bracket upper bound is modelled as `Option ℚ` with
  `none` standing for plus infinity.
* Python functions that can raise are modelled as `Option`/`Except` valued.
* Python's built-in `round(x, n)` (round-half-to-even on the n-th decimal)
  is modelled exactly on `ℚ` by `pyRound`.
-/

namespace Retire

/-- Operation tag of a transaction (`class Operation(Enum)` in
`capital_gain_tax.py`). -/
inductive Operation where
  | buy
  | sell
deriving DecidableEq, Repr

/-- Filing status (`class FilingStatus(Enum)` in `income_tax.py`). -/
inductive FilingStatus where
  | single
  | married_jointly
  | married_separately
  | head_of_household
deriving DecidableEq, Repr

/-- A transaction record (`Transaction = namedtuple('Transaction', ['date',
'operation', 'quantity', 'price'])`).  `UpdatableTransaction` (a mutable copy
of a `Transaction`) is modelled by the same structure with functional update. -/
structure Transaction where
  date : ℤ
  operation : Operation
  quantity : ℚ
  price : ℚ
deriving DecidableEq, Repr

/-- One element of the list returned by `calculate_fifo_capital_gains`
(the dict appended to `_gains_and_losses`). -/
structure MatchRecord where
  sale_date : ℤ
  purchase_date : ℤ
  quantity : ℚ
  cost_basis : ℚ
  sale_proceeds : ℚ
  gain_loss : ℚ
  tax_type : String
deriving DecidableEq, Repr

/-- A per-bracket tax line (`TaxAmount = namedtuple('TaxAmount',
['amount', 'rate', 'tax'])` in `income_tax.py`). -/
structure TaxAmount where
  amount : ℚ
  rate : ℚ
  tax : ℚ
deriving DecidableEq, Repr

/-- One bracket row `(lower_bound, upper_bound, rate)`; `none` as upper bound
stands for `float('inf')`. -/
abbrev Bracket := ℚ × Option ℚ × ℚ

/-- The `income_tax_brackets` table of `income_tax.py`. -/
def income_tax_brackets : FilingStatus → List Bracket
  | .single =>
    [(0, some 11160, 1/10), (11161, some 47150, 12/100), (47151, some 100525, 22/100),
     (100526, some 191950, 24/100), (191951, some 243725, 32/100),
     (243726, some 609350, 35/100), (609351, none, 37/100)]
  | .married_jointly =>
    [(0, some 23200, 1/10), (23201, some 94300, 12/100), (94301, some 201050, 22/100),
     (201051, some 383900, 24/100), (383901, some 487450, 32/100),
     (487451, some 731200, 35/100), (731201, none, 37/100)]
  | .married_separately =>
    [(0, some 11160, 1/10), (11161, some 47150, 12/100), (47151, some 100525, 22/100),
     (100526, some 191950, 24/100), (191951, some 243725, 32/100),
     (243726, some 365600, 35/100), (365601, none, 37/100)]
  | .head_of_household =>
    [(0, some 16550, 1/10), (16551, some 63100, 12/100), (63101, some 100500, 22/100),
     (100501, some 191950, 24/100), (191951, some 243700, 32/100),
     (243701, some 609350, 35/100), (609351, none, 37/100)]

/-- The `long_term_tax_brackets` table of `capital_gain_tax.py`
(note the source's `HEAD_OF_HOUSEHOLD` rows: `(63001, 535130)` is followed by
`(535351, inf)`, leaving `535131 ..= 535350` uncovered). -/
def long_term_tax_brackets : FilingStatus → List Bracket
  | .single => [(0, some 48350, 0), (48351, some 533400, 15/100), (533401, none, 2/10)]
  | .married_jointly => [(0, some 97600, 0), (96701, some 600500, 15/100), (600501, none, 2/10)]
  | .married_separately => [(0, some 48350, 0), (48351, some 300000, 15/100), (300001, none, 2/10)]
  | .head_of_household => [(0, some 63000, 0), (63001, some 535130, 15/100), (535351, none, 2/10)]

/-- The `social_security_tax_brackets` table of `social_security_tax.py`. -/
def social_security_tax_brackets : FilingStatus → List Bracket
  | .single => [(0, some 25000, 0), (25001, some 34000, 5/10), (34000, none, 85/100)]
  | .married_jointly => [(0, some 32000, 0), (32001, some 44000, 5/10), (44000, none, 85/100)]
  | .married_separately => [(0, some 25000, 0), (25001, some 34000, 5/10), (34000, none, 85/100)]
  | .head_of_household => [(0, some 25000, 0), (25001, some 34000, 5/10), (34000, none, 85/100)]

/-- The membership test `upper_bound >= income >= lower_bound` used by every
bracket scan in the source; an infinite upper bound compares `>=` anything. -/
def matches_bracket (income : ℚ) (b : Bracket) : Bool :=
  (match b.2.1 with
   | some hi => decide (income ≤ hi)
   | none => true) && decide (b.1 ≤ income)

/-- Linear scan for the first bracket containing `income`, returning its rate;
`none` models falling through the loop (which the source turns into a raised
`RuntimeError` in `get_long_term_rate` / `get_short_term_rate`). -/
def bracket_lookup (brs : List Bracket) (income : ℚ) : Option ℚ :=
  (brs.find? (matches_bracket income)).map (fun b => b.2.2)

/-- The function `niit_rate` of `capital_gain_tax.py`. -/
def niit_rate (income : ℚ) (fs : FilingStatus) : ℚ :=
  if (fs = .single ∧ 200000 < income) ∨ (fs = .married_jointly ∧ 250000 < income)
      ∨ (fs = .married_separately ∧ 125000 < income)
      ∨ (fs = .head_of_household ∧ 200000 < income) then
    38/10000
  else
    0

/-- The function `get_long_term_rate` of `capital_gain_tax.py`; `none` models
the `raise RuntimeError(...)` after the loop. -/
def get_long_term_rate (income : ℚ) (fs : FilingStatus) : Option ℚ :=
  bracket_lookup (long_term_tax_brackets fs) income

/-- The function `get_short_term_rate` of `capital_gain_tax.py` (scans the
ordinary `income_tax_brackets`); `none` models the raised `RuntimeError`. -/
def get_short_term_rate (income : ℚ) (fs : FilingStatus) : Option ℚ :=
  bracket_lookup (income_tax_brackets fs) income

/-- Gregorian leap-year test, as in Python's `calendar`/`datetime`. -/
def isLeapYear (y : ℤ) : Bool :=
  y % 4 == 0 && (y % 100 != 0 || y % 400 == 0)

/-- Cumulative day count before the given month (1 = January). -/
def daysBeforeMonth (m : ℕ) (leap : Bool) : ℤ :=
  let base : ℤ :=
    match m with
    | 1 => 0 | 2 => 31 | 3 => 59 | 4 => 90 | 5 => 120 | 6 => 151
    | 7 => 181 | 8 => 212 | 9 => 243 | 10 => 273 | 11 => 304 | 12 => 334
    | _ => 0
  if leap ∧ 3 ≤ m then base + 1 else base

/-- Proleptic-Gregorian ordinal of a calendar date, mirroring
`datetime.date.toordinal` (0001-01-01 has ordinal 1); date subtraction in the
source, `(sale.date - purchase.date).days`, is subtraction of ordinals. -/
def toOrdinal (y : ℤ) (m d : ℕ) : ℤ :=
  365 * (y - 1) + (y - 1) / 4 - (y - 1) / 100 + (y - 1) / 400
    + daysBeforeMonth m (isLeapYear y) + d

/-- Round a rational to the nearest integer, ties to even, as Python's
built-in `round` does (on exactly-representable values). -/
def roundHalfEven (x : ℚ) : ℤ :=
  let f : ℤ := ⌊x⌋
  let r : ℚ := x - f
  if r < 1/2 then f
  else if 1/2 < r then f + 1
  else if f % 2 = 0 then f else f + 1

/-- Python's `round(x, digits)` on exact decimals. -/
def pyRound (x : ℚ) (digits : ℕ) : ℚ :=
  (roundHalfEven (x * 10 ^ digits) : ℚ) / 10 ^ digits

namespace IncomeTax

/-- The loop of `IncomeTax.tax_details` (`income_tax.py`): walk the brackets
with the running `remaining_income`, breaking as soon as it is `<= 0`; a
finite bracket taxes `min remaining (upper - lower + 1)`, the infinite top
bracket taxes everything remaining. -/
def tax_details_from : ℚ → List Bracket → List TaxAmount
  | _, [] => []
  | remaining, (lo, hi, rate) :: rest =>
    if remaining ≤ 0 then []
    else
      let taxable : ℚ :=
        match hi with
        | some u => min remaining (u - lo + 1)
        | none => remaining
      ⟨taxable, rate, taxable * rate⟩ :: tax_details_from (remaining - taxable) rest

/-- The property `IncomeTax.tax_details`. -/
def tax_details (income : ℚ) (fs : FilingStatus) : List TaxAmount :=
  tax_details_from income (income_tax_brackets fs)

/-- The property `IncomeTax.tax_due`: sum of the per-bracket `tax` fields. -/
def tax_due (income : ℚ) (fs : FilingStatus) : ℚ :=
  ((tax_details income fs).map TaxAmount.tax).sum

end IncomeTax

namespace SocialSecurityTax

/-- The method `SocialSecurityTax.taxable_percentage` (`social_security_tax.py`,
default `digits=1`): scan the bracket table and return the rounded fraction of
the first match; the source has no statement after the loop, so a miss makes
the Python function return `None` — modelled by `none`. -/
def taxable_percentage (combined_income : ℚ) (fs : FilingStatus) : Option ℚ :=
  (bracket_lookup (social_security_tax_brackets fs) combined_income).map
    (fun fraction => pyRound fraction 1)

end SocialSecurityTax

namespace CapitalGainTax

/-- The dict appended to `_gains_and_losses` for a matched
(sale, purchase-portion) pair, including the holding-period classification
`if holding_period > 365 then "long-term" else "short-term"`. -/
def mkRecord (sale purchase : Transaction) (matched : ℚ) : MatchRecord :=
  { sale_date := sale.date
    purchase_date := purchase.date
    quantity := matched
    cost_basis := matched * purchase.price
    sale_proceeds := matched * sale.price
    gain_loss := matched * sale.price - matched * purchase.price
    tax_type := if 365 < sale.date - purchase.date then "long-term" else "short-term" }

/-- One iteration of the inner `while` loop of `calculate_fifo_capital_gains`
on a non-empty queue: pop the front purchase `p`, match
`min remaining p.quantity`, emit the record, and either push the reduced lot
back to the front (`purchase_queue.appendleft`) when it is not fully used, or
drop it.  Returns (emitted record, new remaining sale quantity, new queue). -/
def saleLoopStep (sale : Transaction) (remaining : ℚ) (p : Transaction)
    (rest : List Transaction) : MatchRecord × ℚ × List Transaction :=
  let matched := min remaining p.quantity
  (mkRecord sale p matched, remaining - matched,
    if matched < p.quantity then { p with quantity := p.quantity - matched } :: rest else rest)

/-- The inner `while remaining_sale_quantity > 0 and purchase_queue:` loop of
`calculate_fifo_capital_gains`, returning the emitted records and the final
queue.  In the partially-used branch the popped lot is pushed back to the
front; there `matched = min remaining p.quantity < p.quantity` forces
`matched = remaining`, so the new remaining quantity is `0` and the source
loop exits at its next guard check — hence no recursive call is needed in
that branch (`fifo_terminates` below re-derives this from `saleLoopStep`). -/
def processSale (sale : Transaction) : ℚ → List Transaction →
    List MatchRecord × List Transaction
  | _, [] => ([], [])
  | remaining, p :: rest =>
    if 0 < remaining then
      let matched := min remaining p.quantity
      if matched < p.quantity then
        ([mkRecord sale p matched], { p with quantity := p.quantity - matched } :: rest)
      else
        let next := processSale sale (remaining - matched) rest
        (mkRecord sale p matched :: next.1, next.2)
    else
      ([], p :: rest)

/-- Date comparison used as the sort key (`sorted(..., key=lambda x: x.date)`). -/
def byDate (a b : Transaction) : Prop := a.date ≤ b.date

instance : DecidableRel byDate := fun a b => inferInstanceAs (Decidable (a.date ≤ b.date))

instance : IsTotal Transaction byDate := ⟨fun a b => le_total a.date b.date⟩

instance : IsTrans Transaction byDate := ⟨fun _ _ _ h h' => le_trans h h'⟩

/-- Python's `sorted` by date: a stable sort, modelled by the (stable)
insertion sort. -/
def sortByDate (l : List Transaction) : List Transaction :=
  List.insertionSort byDate l

/-- The outer `for sale in sorted(_sales, ...)` loop: process each sale in
date order against the running purchase queue. -/
def fifoLoop : List Transaction → List Transaction → List MatchRecord
  | [], _ => []
  | sale :: sales, queue =>
    let step := processSale sale sale.quantity queue
    step.1 ++ fifoLoop sales step.2

/-- The method `CapitalGainTax.calculate_fifo_capital_gains`: split the
transactions into buys and sells, sort each by date, and run the matching
loops. -/
def calculate_fifo_capital_gains (trs : List Transaction) : List MatchRecord :=
  let buys := trs.filter (fun t => t.operation == Operation.buy)
  let sales := trs.filter (fun t => t.operation == Operation.sell)
  fifoLoop (sortByDate sales) (sortByDate buys)

/-- Sum of `gain_loss` over the records classified `"short-term"`
(the `short_term_gain_loss` accumulator of `tax_due`). -/
def short_term_total (recs : List MatchRecord) : ℚ :=
  ((recs.filter (fun r => r.tax_type == "short-term")).map MatchRecord.gain_loss).sum

/-- Sum of `gain_loss` over the records classified `"long-term"`
(the `long_term_gain_loss` accumulator of `tax_due`). -/
def long_term_total (recs : List MatchRecord) : ℚ :=
  ((recs.filter (fun r => r.tax_type == "long-term")).map MatchRecord.gain_loss).sum

/-- The value of the `short_term_gain_loss` variable after the long-term
branch of `tax_due`: unchanged when `long_term_gain_loss > 0`, otherwise the
non-positive long-term total is folded in as an offset. -/
def offset_short_total (recs : List MatchRecord) : ℚ :=
  if 0 < long_term_total recs then short_term_total recs
  else short_term_total recs + long_term_total recs

/-- Error message for a fallen-through long-term bracket scan. -/
def longRateErr : String := "RuntimeError: No long-term tax bracket found"

/-- Error message for a fallen-through short-term bracket scan. -/
def shortRateErr : String := "RuntimeError: No short-term tax bracket found"

/-- Error message for the carry-over print: `capital_gain_tax.py` never
imports `sys`, so executing `print(..., file=sys.stderr)` raises `NameError`. -/
def sysNameErr : String := "NameError: name sys is not defined"

/-- The method `CapitalGainTax.tax_due` (lines 115-154 of
`capital_gain_tax.py`).  Faithful to the source: rates are looked up before
the branch chain (a miss raises `RuntimeError`); a positive long-term total is
taxed at `long_term_rate + niit_rate` and added; otherwise the long-term total
is folded into the short-term total; a positive (folded) short-term total adds
`short_term * short_term_rate`; a negative one OVERWRITES `tax_owed` with
`max (-3000)` of it, and when it is below `-3000` the carry-over print crashes
with `NameError` (missing `import sys`) before the function can return.
The returned amount is `round(tax_owed, 2)`. -/
def tax_due (trs : List Transaction) (income : ℚ) (fs : FilingStatus) :
    Except String ℚ :=
  let my_niit_rate := niit_rate income fs
  let recs := calculate_fifo_capital_gains trs
  let short0 := short_term_total recs
  let ltt := long_term_total recs
  match get_long_term_rate income fs with
  | none => .error longRateErr
  | some long_term_rate =>
    match get_short_term_rate income fs with
    | none => .error shortRateErr
    | some short_term_rate =>
      let tax0 : ℚ := if 0 < ltt then ltt * (long_term_rate + my_niit_rate) else 0
      let stt : ℚ := if 0 < ltt then short0 else short0 + ltt
      if 0 < stt then .ok (pyRound (tax0 + stt * short_term_rate) 2)
      else if stt < 0 then
        if stt < -3000 then .error sysNameErr
        else .ok (pyRound (max (-3000) stt) 2)
      else .ok (pyRound tax0 2)

/-- The transaction list built by `unit_test()` in `capital_gain_tax.py`. -/
def sampleTransactions : List Transaction :=
  [⟨toOrdinal 2023 1 15, .buy, 100, 20⟩,
   ⟨toOrdinal 2023 3 10, .buy, 50, 22⟩,
   ⟨toOrdinal 2024 2 5, .buy, 75, 25⟩,
   ⟨toOrdinal 2024 1 20, .sell, 80, 28⟩,
   ⟨toOrdinal 2024 7 1, .sell, 50, 30⟩]

/-- A buy/sell pair realising a short-term loss of 5000 within the same year:
the net short-term result is below -3000, so `tax_due` reaches the carry-over
print and crashes. -/
def lossTransactions : List Transaction :=
  [⟨0, .buy, 100, 100⟩, ⟨10, .sell, 100, 50⟩]

/-- A list realising a positive long-term gain (+500) together with a
short-term loss (-500), exercising the branch where the loss overwrites the
accrued long-term tax. -/
def mixedTransactions : List Transaction :=
  [⟨0, .buy, 100, 10⟩, ⟨400, .sell, 100, 15⟩, ⟨500, .buy, 10, 100⟩, ⟨510, .sell, 10, 50⟩]

/-- A list containing a negative-quantity buy and a negative-price buy; the
source has no input validation, so it is processed silently. -/
def invalidTransactions : List Transaction :=
  [⟨0, .buy, -5, 10⟩, ⟨0, .buy, 4, -25⟩, ⟨1, .sell, 3, 20⟩]

/-- A purchase-to-sale gap of exactly 365 days. -/
def boundaryShortList : List Transaction :=
  [⟨0, .buy, 10, 5⟩, ⟨365, .sell, 10, 6⟩]

/-- A purchase-to-sale gap of exactly 366 days. -/
def boundaryLongList : List Transaction :=
  [⟨0, .buy, 10, 5⟩, ⟨366, .sell, 10, 6⟩]

/-- The match record produced from `boundaryShortList`. -/
def recShort : MatchRecord := ⟨365, 0, 10, 50, 60, 10, "short-term"⟩

/-- The match record produced from `boundaryLongList`. -/
def recLong : MatchRecord := ⟨366, 0, 10, 50, 60, 10, "long-term"⟩

/-- A concrete sale for witness instantiations. -/
def saleW : Transaction := ⟨738905, .sell, 80, 28⟩

/-- A concrete partially-consumed purchase for witness instantiations. -/
def purchaseW : Transaction := ⟨738535, .buy, 100, 20⟩

/-- A concrete sale for the termination witness. -/
def saleT : Transaction := ⟨10, .sell, 5, 7⟩

/-- A concrete fully-consumed purchase for the termination witness. -/
def purchaseT : Transaction := ⟨0, .buy, 3, 2⟩

end CapitalGainTax

/-- Specification-side portion of `income` that falls in one bracket
`[lower_bound, upper_bound]` (the spec's marginal-tax sentence): the bracket
width is inclusive (`upper - lower + 1`), the top bracket is unbounded, and a
bracket above the income contributes nothing. -/
def portionInBracket (income : ℚ) (b : Bracket) : ℚ :=
  match b with
  | (lo, some hi, _) => max 0 (min income (hi + 1) - lo)
  | (lo, none, _) => max 0 (income - lo)

/-- Specification-side marginal income tax, following the spec's words
("for each bracket in ascending order, tax the portion of income falling in
`[lower_bound, upper_bound]` at that bracket's rate"): a plain sum over the
bracket table, with no sequential `remaining_income` state.  To be compared
with `IncomeTax.tax_due`. -/
def marginal_tax_spec (income : ℚ) (fs : FilingStatus) : ℚ :=
  ((income_tax_brackets fs).map (fun b => portionInBracket income b * b.2.2)).sum

/-- Checks that a bracket list starting at lower bound `L` is a contiguous
chain: each finite bracket `(lo, hi, _)` has `lo = L` and positive inclusive
width, and is followed by a chain starting at `hi + 1`; an unbounded bracket
must be last. -/
def bracketsChainFrom : ℚ → List Bracket → Bool
  | _, [] => true
  | l, (lo, some hi, _) :: rest =>
    lo == l && decide (l < hi + 1) && bracketsChainFrom (hi + 1) rest
  | l, (lo, none, _) :: rest => lo == l && rest.isEmpty

/-- The two classification tags are distinct strings. -/
theorem short_ne_long : ("short-term" : String) ≠ "long-term" := by decide

/-- The two classification tags are distinct strings (reversed). -/
theorem long_ne_short : ("long-term" : String) ≠ "short-term" := by decide

/-- Rounding an integer changes nothing. -/
theorem roundHalfEven_intCast (n : ℤ) : roundHalfEven (n : ℚ) = n := by
  unfold roundHalfEven
  norm_num

/-- The amount `round(x, 2)` is `x` itself whenever `x` has at most two
decimal places. -/
theorem pyRound_eq_self (x : ℚ) (n : ℤ) (h : x * 100 = (n : ℚ)) : pyRound x 2 = x := by
  unfold pyRound
  rw [show ((10:ℚ) ^ (2:ℕ)) = 100 by norm_num, h, roundHalfEven_intCast]
  rw [← h]
  field_simp

/-- Ordinal of 2023-01-15, matching Python. -/
theorem ord_2023_1_15 : toOrdinal 2023 1 15 = 738535 := by decide

/-- Ordinal of 2023-03-10, matching Python. -/
theorem ord_2023_3_10 : toOrdinal 2023 3 10 = 738589 := by decide

/-- Ordinal of 2024-01-20, matching Python. -/
theorem ord_2024_1_20 : toOrdinal 2024 1 20 = 738905 := by decide

/-- Ordinal of 2024-02-05, matching Python. -/
theorem ord_2024_2_5 : toOrdinal 2024 2 5 = 738921 := by decide

/-- Ordinal of 2024-07-01, matching Python. -/
theorem ord_2024_7_1 : toOrdinal 2024 7 1 = 739068 := by decide

namespace CapitalGainTax

/-- Claim C1 (evidence of the code bug): `lossTransactions` produces a net
short-term result of -5000, below the -3000 cap, so the claim's premise
holds; but `tax_due` does not return -3000 — it raises `NameError`, because
`capital_gain_tax.py` uses `sys.stderr` in the carry-over print without ever
importing `sys`, so the informational side-channel crashes the call. -/
theorem tax_due_carry_over_crash :
    offset_short_total (calculate_fifo_capital_gains lossTransactions) = -5000 ∧
    tax_due lossTransactions 50000 .single = .error sysNameErr := by
  constructor
  · norm_num [offset_short_total, calculate_fifo_capital_gains, fifoLoop, processSale,
      sortByDate, lossTransactions, byDate, short_term_total, long_term_total, mkRecord,
      List.filter_cons, short_ne_long, long_ne_short]
  · norm_num [tax_due, lossTransactions, calculate_fifo_capital_gains, fifoLoop, processSale,
      sortByDate, byDate, short_term_total, long_term_total, mkRecord, get_long_term_rate,
      get_short_term_rate, bracket_lookup, long_term_tax_brackets, income_tax_brackets,
      matches_bracket, List.find?, niit_rate, List.filter_cons, short_ne_long, long_ne_short]

/-- Claim C7 (counterexample): in the scenario of `unit_test()`, the second
emitted record (the remaining 20 shares of the 2023-01-15 lot sold on
2024-07-01) has a holding period of 533 days, not the 473 days the spec
states. -/
theorem sample_holding_period_cex :
    ((calculate_fifo_capital_gains sampleTransactions).get? 1).map
        (fun r => r.sale_date - r.purchase_date) = some 533 ∧ (533 : ℤ) ≠ 473 := by
  constructor
  · norm_num [calculate_fifo_capital_gains, fifoLoop, processSale, sortByDate,
      sampleTransactions, byDate, mkRecord, List.filter_cons, List.get?,
      ord_2023_1_15, ord_2023_3_10, ord_2024_1_20, ord_2024_2_5, ord_2024_7_1]
  · decide

/-- Claim C7 (amended): the engine emits exactly three records — 80 shares of
the 100-share lot (holding period 370 days, LONG, gain 640), then the
remaining 20 shares of that lot (holding period 533 days, LONG, gain 200),
then 30 shares of the 50-share lot (holding period 479 days, LONG, gain
240). -/
theorem sample_match_records :
    calculate_fifo_capital_gains sampleTransactions =
      [⟨toOrdinal 2024 1 20, toOrdinal 2023 1 15, 80, 1600, 2240, 640, "long-term"⟩,
       ⟨toOrdinal 2024 7 1, toOrdinal 2023 1 15, 20, 400, 600, 200, "long-term"⟩,
       ⟨toOrdinal 2024 7 1, toOrdinal 2023 3 10, 30, 660, 900, 240, "long-term"⟩] ∧
    toOrdinal 2024 1 20 - toOrdinal 2023 1 15 = 370 ∧
    toOrdinal 2024 7 1 - toOrdinal 2023 1 15 = 533 ∧
    toOrdinal 2024 7 1 - toOrdinal 2023 3 10 = 479 := by
  refine ⟨?_, by decide, by decide, by decide⟩
  norm_num [calculate_fifo_capital_gains, fifoLoop, processSale, sortByDate,
    sampleTransactions, byDate, mkRecord, List.filter_cons,
    ord_2023_1_15, ord_2023_3_10, ord_2024_1_20, ord_2024_2_5, ord_2024_7_1]

/-- Claim C9 (counterexample): a transaction list containing a
negative-quantity buy and a negative-price buy is not rejected — the whole
computation runs to completion and returns an ordinary tax figure, because
the source performs no input validation at all. -/
theorem no_input_validation_cex :
    tax_due invalidTransactions 50000 .single = .ok (143/5) := by
  have h1 : pyRound (143/5) 2 = 143/5 := pyRound_eq_self _ 2860 (by norm_num)
  norm_num [tax_due, invalidTransactions, calculate_fifo_capital_gains, fifoLoop, processSale,
    sortByDate, byDate, short_term_total, long_term_total, mkRecord, get_long_term_rate,
    get_short_term_rate, bracket_lookup, long_term_tax_brackets, income_tax_brackets,
    matches_bracket, List.find?, niit_rate, List.filter_cons, short_ne_long, long_ne_short, h1]

/-- Claim C9 (amended): the source performs no input validation; transactions
with negative quantity or negative price are matched silently, producing
match records that incorporate the invalid values (here a record with
quantity -5 and one with cost basis -100). -/
theorem no_input_validation :
    calculate_fifo_capital_gains invalidTransactions =
      [⟨1, 0, -5, -50, -100, -50, "short-term"⟩,
       ⟨1, 0, 4, -100, 80, 180, "short-term"⟩] := by
  norm_num [calculate_fifo_capital_gains, fifoLoop, processSale, sortByDate,
    invalidTransactions, byDate, mkRecord, List.filter_cons]

/-- Claim C10: one iteration of the inner matching loop (`saleLoopStep`)
either strictly shrinks the purchase queue (the popped lot is not re-queued),
or re-queues the reduced lot — in which case the matched quantity equals the
whole remaining sale quantity, the new remaining quantity is 0, and the loop
exits at its next guard; moreover `processSale` computes exactly what
iterating `saleLoopStep` computes.  As the embedded `processSale`, `fifoLoop`
and `calculate_fifo_capital_gains` are total functions, the source loops
terminate on every finite transaction list, including lists with zero or
negative quantities. -/
theorem fifo_terminates (sale : Transaction) (remaining : ℚ) (p : Transaction)
    (rest : List Transaction) (h : 0 < remaining) :
    ((saleLoopStep sale remaining p rest).2.2.length < (p :: rest).length ∨
      ((saleLoopStep sale remaining p rest).2.1 = 0 ∧
        (saleLoopStep sale remaining p rest).2.2.length = (p :: rest).length)) ∧
    processSale sale remaining (p :: rest) =
      ((saleLoopStep sale remaining p rest).1 ::
          (processSale sale (saleLoopStep sale remaining p rest).2.1
              (saleLoopStep sale remaining p rest).2.2).1,
        (processSale sale (saleLoopStep sale remaining p rest).2.1
            (saleLoopStep sale remaining p rest).2.2).2) := by
  by_cases hm : min remaining p.quantity < p.quantity
  · have hmin : min remaining p.quantity = remaining := by
      rcases le_total remaining p.quantity with h1 | h1
      · exact min_eq_left h1
      · rw [min_eq_right h1] at hm
        exact absurd hm (lt_irrefl _)
    have hrp : remaining < p.quantity := hmin ▸ hm
    refine ⟨Or.inr ⟨?_, ?_⟩, ?_⟩
    · simp [saleLoopStep, hmin]
    · simp [saleLoopStep, hm]
    · simp [processSale, saleLoopStep, hmin, hrp, h]
  · refine ⟨Or.inl ?_, ?_⟩
    · simp [saleLoopStep, hm]
    · simp [processSale, saleLoopStep, h, hm]

/-- Witness for `fifo_terminates` at a concrete input. -/
theorem fifo_terminates_witness :
    ((saleLoopStep saleT 5 purchaseT []).2.2.length < (purchaseT :: []).length ∨
      ((saleLoopStep saleT 5 purchaseT []).2.1 = 0 ∧
        (saleLoopStep saleT 5 purchaseT []).2.2.length = (purchaseT :: []).length)) ∧
    processSale saleT 5 (purchaseT :: []) =
      ((saleLoopStep saleT 5 purchaseT []).1 ::
          (processSale saleT (saleLoopStep saleT 5 purchaseT []).2.1
              (saleLoopStep saleT 5 purchaseT []).2.2).1,
        (processSale saleT (saleLoopStep saleT 5 purchaseT []).2.1
            (saleLoopStep saleT 5 purchaseT []).2.2).2) :=
  fifo_terminates saleT 5 purchaseT [] (by norm_num)

end CapitalGainTax

/-- Claim C2 (evidence of the code bug): 535200 is a perfectly ordinary
non-negative income, yet the long-term bracket scan for `HEAD_OF_HOUSEHOLD`
finds no bracket (the table jumps from upper bound 535130 to lower bound
535351), so `get_long_term_rate` raises `RuntimeError` instead of returning a
rate. -/
theorem long_term_rate_gap :
    (0 : ℚ) ≤ 535200 ∧ get_long_term_rate 535200 .head_of_household = none :=
  ⟨by norm_num, rfl⟩

namespace CapitalGainTax

/-- Unfolding of `processSale` when the sale is already exhausted. -/
theorem processSale_nonpos (sale : Transaction) (rem : ℚ) (p : Transaction)
    (rest : List Transaction) (h : ¬ 0 < rem) :
    processSale sale rem (p :: rest) = ([], p :: rest) := by
  simp [processSale, h]

/-- Unfolding of `processSale` when the front lot is only partially used: it
is reduced in place and pushed back to the front of the queue, and the
matched quantity necessarily was the whole remaining sale quantity. -/
theorem processSale_requeue (sale : Transaction) (rem : ℚ) (p : Transaction)
    (rest : List Transaction) (h : 0 < rem) (hm : min rem p.quantity < p.quantity) :
    processSale sale rem (p :: rest) =
      ([mkRecord sale p (min rem p.quantity)],
        { p with quantity := p.quantity - min rem p.quantity } :: rest) := by
  simp [processSale, h, hm]

/-- Unfolding of `processSale` when the front lot is fully consumed. -/
theorem processSale_consume (sale : Transaction) (rem : ℚ) (p : Transaction)
    (rest : List Transaction) (h : 0 < rem) (hm : ¬ min rem p.quantity < p.quantity) :
    processSale sale rem (p :: rest) =
      (mkRecord sale p (min rem p.quantity) ::
          (processSale sale (rem - min rem p.quantity) rest).1,
        (processSale sale (rem - min rem p.quantity) rest).2) := by
  simp [processSale, h, hm]

/-- Claim C3: with both rate lookups succeeding, (i) when the post-offset
short-term total is negative the whole result depends only on that total —
`tax_owed` is overwritten with `max (-3000)` of it (reaching the carry-over
crash below -3000), discarding any long-term tax accrued in the same
invocation; (ii) a non-positive long-term total is folded into the short-term
total as an offset; (iii) a positive long-term total is taxed at
`long_term_rate + niit_rate` and its tax added to the short-term tax. -/
theorem tax_due_branches (trs : List Transaction) (income ltr str : ℚ)
    (fs : FilingStatus)
    (hl : get_long_term_rate income fs = some ltr)
    (hs : get_short_term_rate income fs = some str) :
    (offset_short_total (calculate_fifo_capital_gains trs) < 0 →
      tax_due trs income fs =
        if offset_short_total (calculate_fifo_capital_gains trs) < -3000 then
          Except.error sysNameErr
        else
          Except.ok (pyRound
            (max (-3000) (offset_short_total (calculate_fifo_capital_gains trs))) 2)) ∧
    (¬ 0 < long_term_total (calculate_fifo_capital_gains trs) →
      offset_short_total (calculate_fifo_capital_gains trs) =
        short_term_total (calculate_fifo_capital_gains trs) +
          long_term_total (calculate_fifo_capital_gains trs)) ∧
    (0 < long_term_total (calculate_fifo_capital_gains trs) →
      0 < short_term_total (calculate_fifo_capital_gains trs) →
      tax_due trs income fs =
        Except.ok (pyRound
          (long_term_total (calculate_fifo_capital_gains trs) * (ltr + niit_rate income fs) +
            short_term_total (calculate_fifo_capital_gains trs) * str) 2)) := by
  simp only [tax_due, hl, hs, offset_short_total]
  refine ⟨?_, ?_, ?_⟩
  · intro hneg
    by_cases hltt : 0 < long_term_total (calculate_fifo_capital_gains trs)
    · rw [if_pos hltt] at hneg
      simp only [if_pos hltt]
      rw [if_neg (by linarith), if_pos hneg]
    · rw [if_neg hltt] at hneg
      simp only [if_neg hltt]
      rw [if_neg (by linarith), if_pos hneg]
  · intro hltt
    rw [if_neg hltt]
  · intro hltt hstt
    rw [if_pos hltt, if_pos hltt, if_pos hstt]

/-- Witness for `tax_due_branches`: on `mixedTransactions` (long-term gain
+500, short-term loss -500, income 50000 SINGLE) the negative-total branch
fires and the long-term tax is discarded. -/
theorem tax_due_branches_witness :
    tax_due mixedTransactions 50000 .single =
      if offset_short_total (calculate_fifo_capital_gains mixedTransactions) < -3000 then
        Except.error sysNameErr
      else
        Except.ok (pyRound
          (max (-3000) (offset_short_total (calculate_fifo_capital_gains mixedTransactions))) 2) :=
  (tax_due_branches mixedTransactions 50000 (3/20) (11/50) .single
      (by norm_num [get_long_term_rate, bracket_lookup, long_term_tax_brackets,
        matches_bracket, List.find?])
      (by norm_num [get_short_term_rate, bracket_lookup, income_tax_brackets,
        matches_bracket, List.find?])).1
    (by norm_num [offset_short_total, calculate_fifo_capital_gains, fifoLoop, processSale,
      sortByDate, mixedTransactions, byDate, short_term_total, long_term_total, mkRecord,
      List.filter_cons, short_ne_long, long_ne_short])

/-- A freshly built match record is tagged long-term exactly when its stored
holding period exceeds 365 days. -/
theorem mkRecord_long_iff (sale p : Transaction) (m : ℚ) :
    ((mkRecord sale p m).tax_type = "long-term" ↔
      365 < (mkRecord sale p m).sale_date - (mkRecord sale p m).purchase_date) := by
  by_cases h : 365 < sale.date - p.date <;>
    simp [mkRecord, h, short_ne_long]

/-- Every record emitted while matching one sale satisfies the
classification iff. -/
theorem processSale_long_iff (sale : Transaction) :
    ∀ (rem : ℚ) (q : List Transaction) (r : MatchRecord),
      r ∈ (processSale sale rem q).1 →
      (r.tax_type = "long-term" ↔ 365 < r.sale_date - r.purchase_date) := by
  intro rem q
  induction q generalizing rem with
  | nil =>
    intro r hr
    simp [processSale] at hr
  | cons p rest ih =>
    intro r hr
    by_cases h0 : 0 < rem
    · by_cases hm : min rem p.quantity < p.quantity
      · rw [processSale_requeue sale rem p rest h0 hm] at hr
        rw [List.mem_singleton] at hr
        subst hr
        exact mkRecord_long_iff sale p _
      · rw [processSale_consume sale rem p rest h0 hm] at hr
        rw [List.mem_cons] at hr
        rcases hr with hr | hr
        · subst hr
          exact mkRecord_long_iff sale p _
        · exact ih _ r hr
    · rw [processSale_nonpos sale rem p rest h0] at hr
      simp at hr

/-- Every record emitted across all sales satisfies the classification iff. -/
theorem fifoLoop_long_iff :
    ∀ (sales q : List Transaction) (r : MatchRecord), r ∈ fifoLoop sales q →
      (r.tax_type = "long-term" ↔ 365 < r.sale_date - r.purchase_date)
  | [], _, r, hr => by simp [fifoLoop] at hr
  | s :: ss, q, r, hr => by
    simp only [fifoLoop, List.mem_append] at hr
    rcases hr with hr | hr
    · exact processSale_long_iff s _ _ r hr
    · exact fifoLoop_long_iff ss _ r hr

/-- Claim C5: a matched pair is classified `"long-term"` exactly when the
whole-day holding period `sale.date - purchase.date` exceeds 365 days; in
particular a 365-day gap is short-term and a 366-day gap is long-term. -/
theorem gain_type_long_iff (trs : List Transaction) (r : MatchRecord)
    (hr : r ∈ calculate_fifo_capital_gains trs) :
    (r.tax_type = "long-term" ↔ 365 < r.sale_date - r.purchase_date) := by
  unfold calculate_fifo_capital_gains at hr
  exact fifoLoop_long_iff _ _ r hr

/-- Witness for `gain_type_long_iff`: the record of a 365-day gap (it is
tagged `"short-term"`) and the record of a 366-day gap (tagged
`"long-term"`). -/
theorem gain_type_long_iff_witness :
    ((recShort.tax_type = "long-term" ↔ 365 < recShort.sale_date - recShort.purchase_date) ∧
      (recLong.tax_type = "long-term" ↔ 365 < recLong.sale_date - recLong.purchase_date)) :=
  ⟨gain_type_long_iff boundaryShortList recShort (by
      norm_num [calculate_fifo_capital_gains, fifoLoop, processSale, sortByDate,
        boundaryShortList, byDate, mkRecord, List.filter_cons, recShort]),
    gain_type_long_iff boundaryLongList recLong (by
      norm_num [calculate_fifo_capital_gains, fifoLoop, processSale, sortByDate,
        boundaryLongList, byDate, mkRecord, List.filter_cons, recLong])⟩

end CapitalGainTax

/-- Claim C8 (evidence of the code bug): for a combined income matched by no
social-security bracket (25000.5 falls in the gap between upper bound 25000
and lower bound 25001), `taxable_percentage` does not abort — the Python
function falls off the end of its loop and silently returns `None`. -/
theorem taxable_percentage_silent_none :
    SocialSecurityTax.taxable_percentage (50001/2) .single = none := by
  norm_num [SocialSecurityTax.taxable_percentage, bracket_lookup,
    social_security_tax_brackets, matches_bracket, List.find?]

/-- A chain of brackets that starts above the income contributes nothing to
the specification-side sum. -/
theorem spec_sum_zero :
    ∀ (brs : List Bracket) (l income : ℚ), bracketsChainFrom l brs = true → income ≤ l →
      ((brs.map (fun b => portionInBracket income b * b.2.2)).sum = 0)
  | [], _, _, _, _ => by simp
  | (lo, some hi, rate) :: rest, l, income, hwf, hle => by
    simp only [bracketsChainFrom, Bool.and_eq_true, beq_iff_eq, decide_eq_true_eq] at hwf
    obtain ⟨⟨hlo, hlt⟩, hrest⟩ := hwf
    subst hlo
    have h1 : portionInBracket income (lo, some hi, rate) = 0 := by
      simp only [portionInBracket]
      refine max_eq_left ?_
      have := min_le_left income (hi + 1)
      linarith
    have h2 := spec_sum_zero rest (hi + 1) income hrest (by linarith)
    simp [h1, h2]
  | (lo, none, rate) :: rest, l, income, hwf, hle => by
    simp only [bracketsChainFrom, Bool.and_eq_true, beq_iff_eq,
      List.isEmpty_iff] at hwf
    obtain ⟨hlo, hrest⟩ := hwf
    subst hlo hrest
    have h1 : portionInBracket income (lo, none, rate) = 0 :=
      max_eq_left (by linarith)
    simp [h1]

/-- The sequential bracket walk emits nothing once the remaining income is
exhausted. -/
theorem tax_details_from_nonpos (rem : ℚ) (brs : List Bracket) (h : rem ≤ 0) :
    IncomeTax.tax_details_from rem brs = [] := by
  cases brs with
  | nil => rfl
  | cons b rest =>
    obtain ⟨lo, hi, rate⟩ := b
    simp [IncomeTax.tax_details_from, h]

/-- Key refinement: on any contiguous bracket chain starting at `l`, the
sequential `remaining_income` walk of the source sums to the
specification-side per-bracket portions. -/
theorem tax_details_sum_from (brs : List Bracket) :
    ∀ (l income : ℚ), bracketsChainFrom l brs = true →
      ((IncomeTax.tax_details_from (income - l) brs).map TaxAmount.tax).sum =
        (brs.map (fun b => portionInBracket income b * b.2.2)).sum := by
  induction brs with
  | nil => intro l income _; simp [IncomeTax.tax_details_from]
  | cons b rest ih =>
    intro l income hwf
    obtain ⟨lo, hi, rate⟩ := b
    cases hi with
    | none =>
      simp only [bracketsChainFrom, Bool.and_eq_true, beq_iff_eq,
        List.isEmpty_iff] at hwf
      obtain ⟨hlo, hrest⟩ := hwf
      subst hlo hrest
      by_cases hrem : income - lo ≤ 0
      · rw [tax_details_from_nonpos _ _ hrem]
        have h1 : portionInBracket income (lo, none, rate) = 0 :=
          max_eq_left (by linarith)
        simp [h1]
      · simp only [IncomeTax.tax_details_from, if_neg hrem]
        have h1 : portionInBracket income (lo, none, rate) = income - lo :=
          max_eq_right (by linarith)
        simp [h1]
    | some u =>
      simp only [bracketsChainFrom, Bool.and_eq_true, beq_iff_eq, decide_eq_true_eq] at hwf
      obtain ⟨⟨hlo, hlt⟩, hrest⟩ := hwf
      subst hlo
      by_cases hrem : income - lo ≤ 0
      · rw [tax_details_from_nonpos _ _ hrem]
        have h1 : portionInBracket income (lo, some u, rate) = 0 := by
          refine max_eq_left ?_
          have := min_le_left income (u + 1)
          linarith
        have h2 := spec_sum_zero rest (u + 1) income hrest (by linarith)
        simp [h1, h2]
      · push_neg at hrem
        have hmin : min (income - lo) (u - lo + 1) = min income (u + 1) - lo := by
          rcases le_total income (u + 1) with h | h
          · rw [min_eq_left (by linarith), min_eq_left h]
          · rw [min_eq_right (by linarith), min_eq_right h]
            ring
        have hpos : (0:ℚ) < min income (u + 1) - lo := by
          have := lt_min (by linarith : lo < income) (by linarith : lo < u + 1)
          linarith
        have hport : portionInBracket income (lo, some u, rate) = min income (u + 1) - lo :=
          max_eq_right (le_of_lt hpos)
        simp only [IncomeTax.tax_details_from, if_neg (by linarith : ¬ income - lo ≤ 0)]
        simp only [List.map_cons, List.sum_cons, hmin, hport]
        have harg : income - lo - (min income (u + 1) - lo) = income - min income (u + 1) := by
          ring
        rw [harg]
        rcases le_total (u + 1) income with hbig | hsmall
        · rw [min_eq_right hbig]
          have := ih (u + 1) income hrest
          rw [this]
        · rw [min_eq_left hsmall]
          rw [tax_details_from_nonpos _ _ (by linarith)]
          have h2 := spec_sum_zero rest (u + 1) income hrest hsmall
          simp [h2]

/-- Claim C6: for every income and filing status, the source's sequential
`tax_due` equals the specification's sum over brackets of rate times the
portion of income falling in the bracket (top bracket unbounded), and a
non-positive income owes zero tax. -/
theorem income_tax_marginal (income : ℚ) (fs : FilingStatus) :
    IncomeTax.tax_due income fs = marginal_tax_spec income fs ∧
    (income ≤ 0 → IncomeTax.tax_due income fs = 0) := by
  have hwf : bracketsChainFrom 0 (income_tax_brackets fs) = true := by
    cases fs <;>
      norm_num [bracketsChainFrom, income_tax_brackets]
  have h1 : IncomeTax.tax_due income fs = marginal_tax_spec income fs := by
    have := tax_details_sum_from (income_tax_brackets fs) 0 income hwf
    simpa [IncomeTax.tax_due, IncomeTax.tax_details, marginal_tax_spec] using this
  refine ⟨h1, fun hle => ?_⟩
  rw [h1, marginal_tax_spec]
  exact spec_sum_zero _ 0 income hwf hle

/-- Witness for `income_tax_marginal` at the concrete income -5. -/
theorem income_tax_marginal_witness :
    IncomeTax.tax_due (-5) .single = marginal_tax_spec (-5) .single ∧
    IncomeTax.tax_due (-5) .single = 0 :=
  ⟨(income_tax_marginal (-5) .single).1,
    (income_tax_marginal (-5) .single).2 (by norm_num)⟩

namespace CapitalGainTax

/-- Invariants of the inner matching loop on a date-sorted queue: the final
queue stays date-sorted; the emitted purchase dates are non-decreasing; every
emitted purchase date is no later than every date left in the final queue;
emitted purchase dates and final-queue dates all come from the starting
queue. -/
theorem processSale_fifo (sale : Transaction) :
    ∀ (rem : ℚ) (q : List Transaction), List.Sorted byDate q →
      List.Sorted byDate (processSale sale rem q).2 ∧
      List.Sorted (· ≤ ·) ((processSale sale rem q).1.map MatchRecord.purchase_date) ∧
      (∀ r ∈ (processSale sale rem q).1, ∀ p ∈ (processSale sale rem q).2,
        r.purchase_date ≤ p.date) ∧
      (∀ r ∈ (processSale sale rem q).1, r.purchase_date ∈ q.map Transaction.date) ∧
      (∀ p ∈ (processSale sale rem q).2, p.date ∈ q.map Transaction.date) := by
  intro rem q
  induction q generalizing rem with
  | nil =>
    intro _
    simp [processSale]
  | cons p rest ih =>
    intro hs
    rw [List.sorted_cons] at hs
    obtain ⟨hp, hrest⟩ := hs
    by_cases h0 : 0 < rem
    · by_cases hm : min rem p.quantity < p.quantity
      · rw [processSale_requeue sale rem p rest h0 hm]
        refine ⟨?_, ?_, ?_, ?_, ?_⟩
        · exact List.sorted_cons.mpr ⟨fun b hb => hp b hb, hrest⟩
        · simp
        · intro r hr p1 hp1
          rw [List.mem_singleton] at hr
          subst hr
          rw [List.mem_cons] at hp1
          rcases hp1 with hp1 | hp1
          · subst hp1
            exact le_refl _
          · exact hp p1 hp1
        · intro r hr
          rw [List.mem_singleton] at hr
          subst hr
          exact List.mem_cons_self _ _
        · intro p1 hp1
          rw [List.mem_cons] at hp1
          rcases hp1 with hp1 | hp1
          · subst hp1
            exact List.mem_cons_self _ _
          · exact List.mem_cons_of_mem _ (List.mem_map_of_mem _ hp1)
      · rw [processSale_consume sale rem p rest h0 hm]
        obtain ⟨i1, i2, i3, i4, i5⟩ := ih (rem - min rem p.quantity) hrest
        refine ⟨i1, ?_, ?_, ?_, ?_⟩
        · rw [List.map_cons]
          refine List.sorted_cons.mpr ⟨?_, i2⟩
          intro x hx
          obtain ⟨r, hr, rfl⟩ := List.mem_map.mp hx
          obtain ⟨b, hb, hbd⟩ := List.mem_map.mp (i4 r hr)
          exact hbd ▸ hp b hb
        · intro r hr p1 hp1
          rw [List.mem_cons] at hr
          rcases hr with hr | hr
          · subst hr
            obtain ⟨b, hb, hbd⟩ := List.mem_map.mp (i5 p1 hp1)
            exact hbd ▸ hp b hb
          · exact i3 r hr p1 hp1
        · intro r hr
          rw [List.mem_cons] at hr
          rcases hr with hr | hr
          · subst hr
            exact List.mem_cons_self _ _
          · exact List.mem_cons_of_mem _ (i4 r hr)
        · intro p1 hp1
          exact List.mem_cons_of_mem _ (i5 p1 hp1)
    · rw [processSale_nonpos sale rem p rest h0]
      refine ⟨List.sorted_cons.mpr ⟨hp, hrest⟩, by simp, by simp, by simp, ?_⟩
      intro p1 hp1
      exact List.mem_map_of_mem _ hp1

/-- Lifting of the loop invariants across all sales: the full record list has
non-decreasing purchase dates, and all of them are dates of the starting
queue. -/
theorem fifoLoop_fifo :
    ∀ (sales q : List Transaction), List.Sorted byDate q →
      List.Sorted (· ≤ ·) ((fifoLoop sales q).map MatchRecord.purchase_date) ∧
      (∀ r ∈ fifoLoop sales q, r.purchase_date ∈ q.map Transaction.date)
  | [], _, _ => by simp [fifoLoop]
  | s :: ss, q, hq => by
    obtain ⟨i1, i2, i3, i4, i5⟩ := processSale_fifo s s.quantity q hq
    obtain ⟨j1, j2⟩ := fifoLoop_fifo ss (processSale s s.quantity q).2 i1
    constructor
    · simp only [fifoLoop, List.map_append]
      rw [List.Sorted, List.pairwise_append]
      refine ⟨i2, j1, ?_⟩
      intro x hx y hy
      obtain ⟨r, hr, rfl⟩ := List.mem_map.mp hx
      obtain ⟨r1, hr1, rfl⟩ := List.mem_map.mp hy
      obtain ⟨b, hb, hbd⟩ := List.mem_map.mp (j2 r1 hr1)
      exact hbd ▸ i3 r hr b hb
    · intro r hr
      simp only [fifoLoop, List.mem_append] at hr
      rcases hr with hr | hr
      · exact i4 r hr
      · obtain ⟨b, hb, hbd⟩ := List.mem_map.mp (j2 r hr)
        exact hbd ▸ i5 b hb

/-- Claim C4: (i) across the whole run the purchase dates of the emitted
records are non-decreasing — each sale always consumes the earliest-dated
not-yet-exhausted purchase next; (ii) a partially-consumed purchase has its
remaining quantity reduced and is returned to the front of the queue, so the
next match continues with that same lot. -/
theorem fifo_earliest_first :
    (∀ trs : List Transaction,
      List.Sorted (· ≤ ·)
        ((calculate_fifo_capital_gains trs).map MatchRecord.purchase_date)) ∧
    (∀ (sale : Transaction) (rem : ℚ) (p : Transaction) (rest : List Transaction),
      0 < rem → min rem p.quantity < p.quantity →
      processSale sale rem (p :: rest) =
        ([mkRecord sale p (min rem p.quantity)],
          { p with quantity := p.quantity - min rem p.quantity } :: rest)) := by
  constructor
  · intro trs
    exact (fifoLoop_fifo
      (sortByDate (trs.filter (fun t => t.operation == Operation.sell)))
      (sortByDate (trs.filter (fun t => t.operation == Operation.buy)))
      (List.sorted_insertionSort byDate _)).1
  · intro sale rem p rest h hm
    exact processSale_requeue sale rem p rest h hm

/-- Witness for `fifo_earliest_first` at the concrete `unit_test` data and a
concrete partially-consumed lot. -/
theorem fifo_earliest_first_witness :
    List.Sorted (· ≤ ·)
      ((calculate_fifo_capital_gains sampleTransactions).map MatchRecord.purchase_date) ∧
    processSale saleW 80 (purchaseW :: []) =
      ([mkRecord saleW purchaseW (min 80 purchaseW.quantity)],
        { purchaseW with quantity := purchaseW.quantity - min 80 purchaseW.quantity } :: []) :=
  ⟨fifo_earliest_first.1 sampleTransactions,
    fifo_earliest_first.2 saleW 80 purchaseW [] (by norm_num)
      (by norm_num [purchaseW])⟩

end CapitalGainTax

end Retire
